/-
  Verification development for the braille chord-to-text input engine
  (braille_always).

  The TypeScript core is shallowly embedded: classes become state
  structures, methods become pure functions returning the updated state
  together with their return value and the list of observable effects
  (emitted characters, mode-change callback invocations).  JS stacks
  (array push/pop at the end) are represented as Lean lists with the
  head as the top of the stack; JS `Map` objects are represented as
  functions into `Option`.
-/
import Mathlib

/-! ## Data model (src/data/types, as used by the engine) -/

/-- The four braille systems; `grade1` is the distinguished base mode. -/
inductive Mode
  | grade1
  | grade2
  | kana
  | nemeth
deriving DecidableEq, Repr

/-- Scope of an indicator: one symbol, one word, or a passage. -/
inductive IndicatorScope
  | symbol
  | word
  | passage
deriving DecidableEq, Repr

/-- Modifier kinds carried by modifier indicators. -/
inductive ModifierKind
  | capital
  | numeric
  | typeform
deriving DecidableEq, Repr

/-- Indicator classification: mode switch vs modifier. -/
inductive IndicatorType
  | mode_switch
  | modifier
deriving DecidableEq, Repr

/-- Indicator action. -/
inductive IndAction
  | enter
  | exit
deriving DecidableEq, Repr

/-- A single-cell mapping (`DotMapping` in src/data/types). -/
structure DotMapping where
  print : String
  role : String
  id : String
deriving DecidableEq, Repr

/-- An indicator definition (`IndicatorDef` in src/data/types). -/
structure IndicatorDef where
  id : String
  dots : List String
  dotsKey : String
  action : IndAction
  targetMode : Mode
  scope : IndicatorScope
  indicatorType : IndicatorType
  modifier : Option ModifierKind
  tags : List String
deriving DecidableEq, Repr

/-- A multi-cell entry (`MultiCellEntry` in src/data/types). -/
structure MultiCellEntry where
  id : String
  dots : List String
  dotsKey : String
  print : String
  mode : Mode
  role : String
deriving DecidableEq, Repr

/-! ## Mode state machine (src/engine/state-machine.ts)

The `StateMachine` class state is the record below; each method returns
the updated state, its return value, and the list of mode-change
callback invocations it performed (old mode, new mode, indicator id). -/

/-- One invocation of the mode-change callback. -/
structure ModeChangeEvent where
  oldMode : Mode
  newMode : Mode
  indicatorId : String
deriving DecidableEq, Repr

/-- The fields of the `StateMachine` class.  The JS array `modeStack`
is pushed/popped at its end; here the list head is the stack top. -/
structure SMState where
  currentMode : Mode
  modeStack : List Mode
  activeScope : Option IndicatorScope
  symbolCount : Nat
  pendingModifier : Option ModifierKind
deriving DecidableEq, Repr

/-- Initial state of the machine (constructor with default mode). -/
def SMState.initial : SMState :=
  { currentMode := Mode.grade1
    modeStack := []
    activeScope := none
    symbolCount := 0
    pendingModifier := none }

/-- Embeds `StateMachine.returnToBase` (private): pop the stack or restore
grade1, clear scope and symbol count, fire the callback with the
synthetic `auto_return` indicator when the mode actually changed. -/
def SMState.returnToBase (st : SMState) : SMState × List ModeChangeEvent :=
  let oldMode := st.currentMode
  let popped : Mode × List Mode :=
    match st.modeStack with
    | top :: rest => (top, rest)
    | [] => (Mode.grade1, [])
  let st' : SMState :=
    { st with
      currentMode := popped.1
      modeStack := popped.2
      activeScope := none
      symbolCount := 0 }
  if oldMode ≠ st'.currentMode then
    (st', [⟨oldMode, st'.currentMode, "auto_return"⟩])
  else
    (st', [])

/-- Embeds `StateMachine.enterMode` (private). -/
def SMState.enterMode (st : SMState) (indicator : IndicatorDef) :
    SMState × Bool × List ModeChangeEvent :=
  let oldMode := st.currentMode
  let newMode := indicator.targetMode
  if oldMode = newMode ∧ st.activeScope = some indicator.scope then
    (st, false, [])
  else
    let st' : SMState :=
      { st with
        currentMode := newMode
        modeStack := oldMode :: st.modeStack
        activeScope := some indicator.scope
        symbolCount := 0 }
    (st', true, [⟨oldMode, newMode, indicator.id⟩])

/-- Embeds `StateMachine.exitMode` (private): no-op at grade1 with empty
stack; otherwise return to base and report whether the mode changed. -/
def SMState.exitMode (st : SMState) (_indicator : IndicatorDef) :
    SMState × Bool × List ModeChangeEvent :=
  if st.currentMode = Mode.grade1 ∧ st.modeStack = [] then
    (st, false, [])
  else
    let oldMode := st.currentMode
    let r := st.returnToBase
    (r.1, decide (oldMode ≠ r.1.currentMode), r.2)

/-- Embeds `StateMachine.processIndicator`. -/
def SMState.processIndicator (st : SMState) (indicator : IndicatorDef) :
    SMState × Bool × List ModeChangeEvent :=
  if indicator.indicatorType = IndicatorType.modifier then
    if indicator.action = IndAction.enter ∧ indicator.modifier.isSome then
      ({ st with pendingModifier := indicator.modifier }, true, [])
    else
      ({ st with pendingModifier := none }, true, [])
  else if indicator.action = IndAction.enter then
    st.enterMode indicator
  else
    st.exitMode indicator

/-- Embeds `StateMachine.consumeModifier`: return and clear the pending
modifier. -/
def SMState.consumeModifier (st : SMState) : Option ModifierKind × SMState :=
  (st.pendingModifier, { st with pendingModifier := none })

/-- Embeds `StateMachine.onCharacterEmitted`: for symbol scope, auto-return
after one character. -/
def SMState.onCharacterEmitted (st : SMState) : SMState × List ModeChangeEvent :=
  if st.activeScope = some IndicatorScope.symbol then
    let st1 := { st with symbolCount := st.symbolCount + 1 }
    if st1.symbolCount ≥ 1 then st1.returnToBase else (st1, [])
  else
    (st, [])

/-- Embeds `StateMachine.onSpace`: for word scope, auto-return. -/
def SMState.onSpace (st : SMState) : SMState × List ModeChangeEvent :=
  if st.activeScope = some IndicatorScope.word then
    st.returnToBase
  else
    (st, [])

/-! ## Matcher results and states -/

/-- Join cell keys with the `|` separator (`pendingCells.join("|")`). -/
def joinPipe (cells : List String) : String :=
  String.intercalate "|" cells

/-- Result of `IndicatorMatcher.tryMatch`. -/
inductive IndicatorMatchResult
  | matched (indicator : IndicatorDef)
  | matchedWithLeftover (indicator : IndicatorDef) (leftoverCells : List String)
  | pending
  | none (bufferedCells : List String)
deriving DecidableEq, Repr

/-- Result of `MultiCellMatcher.tryMatch`. -/
inductive MultiCellMatchResult
  | matched (entry : MultiCellEntry)
  | matchedWithLeftover (entry : MultiCellEntry) (leftoverCells : List String)
  | pending
  | none (bufferedCells : List String)
deriving DecidableEq, Repr

/-! ## Indicator matcher (src/engine/indicator-matcher.ts)

The class fields `pendingCells` and `deferredMatch` form the state;
`indicators` (set once by `setIndicators`) is a parameter, and the
derived `maxCells` is recomputed from it. -/

/-- Mutable state of the `IndicatorMatcher` class. -/
structure IndState where
  pendingCells : List String
  deferredMatch : Option IndicatorDef
deriving DecidableEq, Repr

/-- Embeds `maxCells` as computed in `setIndicators`:
`Math.max(1, ...indicators.map(i => i.dots.length))`. -/
def IndicatorMatcher.maxCells (indicators : List IndicatorDef) : Nat :=
  indicators.foldl (fun m i => max m i.dots.length) 1

/-- Embeds `IndicatorMatcher.hasPending`. -/
def IndState.hasPending (st : IndState) : Bool :=
  st.pendingCells.length > 0

/-- Embeds `IndicatorMatcher.tryMatch`.  Returns the updated state and
the match result. -/
def IndicatorMatcher.tryMatch (indicators : List IndicatorDef)
    (st : IndState) (dotsKey : String) : IndState × IndicatorMatchResult :=
  let pendingCells := st.pendingCells ++ [dotsKey]
  let pendingKey := joinPipe pendingCells
  let exactMatch := indicators.find? (fun i => i.dotsKey == pendingKey)
  let hasLonger := indicators.any (fun i =>
    String.isPrefixOf (pendingKey ++ "|") i.dotsKey)
  match exactMatch with
  | some e =>
    if hasLonger then
      -- exact match but a longer indicator is possible: defer
      ({ pendingCells := pendingCells, deferredMatch := some e },
        IndicatorMatchResult.pending)
    else
      ({ pendingCells := [], deferredMatch := none },
        IndicatorMatchResult.matched e)
  | none =>
    if hasLonger ∧ pendingCells.length < IndicatorMatcher.maxCells indicators then
      ({ pendingCells := pendingCells, deferredMatch := st.deferredMatch },
        IndicatorMatchResult.pending)
    else
      match st.deferredMatch with
      | some d =>
        ({ pendingCells := [], deferredMatch := none },
          IndicatorMatchResult.matchedWithLeftover d
            [pendingCells.getLastD ""])
      | none =>
        ({ pendingCells := [], deferredMatch := none },
          IndicatorMatchResult.none pendingCells)

/-- Embeds `IndicatorMatcher.flushPending`: return and clear the buffered
cells, dropping the deferred match. -/
def IndState.flushPending (st : IndState) : List String × IndState :=
  (st.pendingCells, { pendingCells := [], deferredMatch := none })

/-! ## Multi-cell matcher (out/engine/multi-cell-matcher.js) -/

/-- Mutable state of the `MultiCellMatcher` class. -/
structure McState where
  pendingCells : List String
deriving DecidableEq, Repr

/-- Embeds `maxCells` as computed in `setEntries`. -/
def MultiCellMatcher.maxCells (entries : List MultiCellEntry) : Nat :=
  entries.foldl (fun m e => max m e.dots.length) 1

/-- Embeds `MultiCellMatcher.hasPending`. -/
def McState.hasPending (st : McState) : Bool :=
  st.pendingCells.length > 0

/-- Embeds `MultiCellMatcher.tryMatch(dotsKey, mode)`.  Returns the updated
state and the match result. -/
def MultiCellMatcher.tryMatch (entries : List MultiCellEntry)
    (st : McState) (dotsKey : String) (mode : Mode) :
    McState × MultiCellMatchResult :=
  let pendingCells := st.pendingCells ++ [dotsKey]
  let pendingKey := joinPipe pendingCells
  let modeEntries := entries.filter (fun e =>
    e.mode == mode || e.mode == Mode.grade1)
  let exactMatch := modeEntries.find? (fun e => e.dotsKey == pendingKey)
  let hasLonger := modeEntries.any (fun e =>
    String.isPrefixOf (pendingKey ++ "|") e.dotsKey)
  match exactMatch with
  | some e =>
    if hasLonger then
      if pendingCells.length < MultiCellMatcher.maxCells entries then
        ({ pendingCells := pendingCells }, MultiCellMatchResult.pending)
      else
        ({ pendingCells := [] }, MultiCellMatchResult.matched e)
    else
      ({ pendingCells := [] }, MultiCellMatchResult.matched e)
  | none =>
    if hasLonger ∧ pendingCells.length < MultiCellMatcher.maxCells entries then
      ({ pendingCells := pendingCells }, MultiCellMatchResult.pending)
    else
      -- no match possible: check whether dropping the last cell
      -- recovers a match against the preceding prefix
      if pendingCells.length > 1 then
        let prevKey := joinPipe pendingCells.dropLast
        match modeEntries.find? (fun e => e.dotsKey == prevKey) with
        | some prevMatch =>
          ({ pendingCells := [] },
            MultiCellMatchResult.matchedWithLeftover prevMatch
              [pendingCells.getLastD ""])
        | none =>
          ({ pendingCells := [] }, MultiCellMatchResult.none pendingCells)
      else
        ({ pendingCells := [] }, MultiCellMatchResult.none pendingCells)

/-- Embeds `MultiCellMatcher.flushPending`. -/
def McState.flushPending (st : McState) : List String × McState :=
  (st.pendingCells, { pendingCells := [] })

/-! ## Data unifier: single-cell conflict resolution
(src/data/unified-table.ts) -/

/-- Insert into a sorted list (helper for the array sorts below;
structural recursion so that terms evaluate by kernel reduction). -/
def insertLe {α : Type} (le : α → α → Bool) (a : α) : List α → List α
  | [] => [a]
  | b :: bs => if le a b then a :: b :: bs else b :: insertLe le a bs

/-- Insertion sort (models the JS `Array.prototype.sort` calls). -/
def sortLe {α : Type} (le : α → α → Bool) : List α → List α
  | [] => []
  | a :: as => insertLe le a (sortLe le as)

/-- Sort the characters of a per-cell digit string
(`d.split("").sort().join("")`). -/
def sortDigits (s : String) : String :=
  String.mk (sortLe (fun a b => a ≤ b) s.data)

/-- Embeds `dotsToKey` of the unifier: canonical key from the `dots` array of
a raw entry. -/
def dotsToKey (dots : List String) : String :=
  match dots with
  | [d] => sortDigits d
  | _ => joinPipe (dots.map sortDigits)

/-- A raw profile entry (the fields `processSingleCell` reads). -/
structure RawBrailleEntry where
  category : String
  subcategory : String
  role : String
  print : Option String
  dots : List String
  tags : List String
  id : String
deriving DecidableEq, Repr

/-- A unified single-cell entry; `mappings` is the partial map
Mode → DotMapping. -/
structure UnifiedEntry where
  dots : String
  mappings : Mode → Option DotMapping

/-- The single-cell table, a JS `Map` keyed by dot key. -/
def SingleCellMap := String → Option UnifiedEntry

/-- Embeds `processSingleCell(entry, mode, map)`: insert a raw entry into the
single-cell table for one mode, resolving same-key/same-mode conflicts
by letting paired (open/close) roles override non-paired roles, and
otherwise keeping the first writer. -/
def processSingleCell (entry : RawBrailleEntry) (mode : Mode)
    (map : SingleCellMap) : SingleCellMap :=
  match entry.print with
  | none => map
  | some p =>
    let key := dotsToKey entry.dots
    let mapping : DotMapping := { print := p, role := entry.role, id := entry.id }
    let unified : UnifiedEntry :=
      match map key with
      | some u => u
      | none => { dots := key, mappings := fun _ => none }
    let newMappings : Mode → Option DotMapping :=
      match unified.mappings mode with
      | none =>
        fun m => if m = mode then some mapping else unified.mappings m
      | some existing =>
        let newIsPaired := entry.role == "open" || entry.role == "close"
        let existingIsPaired := existing.role == "open" || existing.role == "close"
        if newIsPaired ∧ ¬ existingIsPaired then
          fun m => if m = mode then some mapping else unified.mappings m
        else
          unified.mappings
    fun k =>
      if k = key then some { dots := key, mappings := newMappings } else map k

/-! ## Dot-mapper pieces used by the driver

The `DotMapper` class source is not part of the provided sources; the
two table lookups are kept as abstract table fields below, and the two
canonicalisation/encoding functions are modelled from the spec. -/

/-- Models `String.prototype.toUpperCase` on the fragment exercised
here: ASCII letters are upper-cased, everything else (CJK brackets,
digits, punctuation) is unchanged. -/
def jsToUpper (s : String) : String :=
  String.mk (s.data.map Char.toUpper)

/-- Modelled from the spec: the missing `DotMapper.dotsKeyToUnicodeBraille`.
Spec §4.6: a cell's code point is `U+2800 + Σ 2^(dᵢ−1)` over dots
`dᵢ ∈ {1..6}`; the empty dot key encodes as `U+2800`.  This computes
the offset sum from the digit characters of the key. -/
def brailleOffset (key : String) : Nat :=
  key.data.foldl
    (fun acc c => if '1' ≤ c ∧ c ≤ '6' then acc + 2 ^ (c.toNat - 49) else acc) 0

/-- Modelled from the spec: Unicode braille glyph of a dot key, a
one-character string at code point `U+2800 +` the dot offset sum. -/
def dotsKeyToUnicodeBraille (key : String) : String :=
  String.singleton (Char.ofNat (0x2800 + brailleOffset key))

/-- Modelled from the spec: the missing `DotMapper.dotsToKey` used at
driver step 1 (§4.6): filter out 0, sort ascending, concatenate the
decimal digits. -/
def chordDotsToKey (dots : List Nat) : String :=
  String.join ((sortLe (fun a b => a ≤ b) (dots.filter (fun d => d ≠ 0))).map
    (fun d => toString d))

/-! ## Pipeline driver (src/extension.ts) -/

/-- The immutable unified tables the driver consults.  The two
`DotMapper` lookups (`lookupNumeric`, `lookup`) are abstract functions
here; the claims quantify over them. -/
structure Tables where
  indicators : List IndicatorDef
  multiCellEntries : List MultiCellEntry
  numericLookup : String → Option DotMapping
  singleLookup : String → Mode → Option DotMapping

/-- One call to `editorOutput.insert` (`dotsKey = none` is the
`insertSpace` path, where no dot key is passed to `insert`). -/
structure Emission where
  text : String
  dotsKey : Option String
deriving DecidableEq, Repr

/-- The driver's mutable state: the two matcher states, the state
machine, and the module-level flags `isNumericMode` and
`kanaBracketOpen`. -/
structure DriverState where
  mc : McState
  ind : IndState
  sm : SMState
  isNumericMode : Bool
  kanaBracketOpen : Bool
deriving Repr

/-- Driver state at activation: empty matchers, initial state machine,
`isNumericMode = false`, `kanaBracketOpen = true`. -/
def DriverState.initial : DriverState :=
  { mc := { pendingCells := [] }
    ind := { pendingCells := [], deferredMatch := none }
    sm := SMState.initial
    isNumericMode := false
    kanaBracketOpen := true }

/-- The state reset performed when `braille.toggleMode` deactivates
(extension.ts lines 100-106): reset both matchers and the state
machine, clear `isNumericMode`, restore `kanaBracketOpen = true`. -/
def deactivateReset (_st : DriverState) : DriverState :=
  DriverState.initial

/-- The normal-lookup tail of `processCharacter` (after the numeric
branch): single-cell lookup, kana bracket toggle, capital modifier,
Unicode braille fallback. -/
def characterNormalPath (tbl : Tables) (st : DriverState)
    (modifier : Option ModifierKind) (dotsKey : String) :
    DriverState × List Emission × List ModeChangeEvent :=
  let mode := st.sm.currentMode
  match tbl.singleLookup dotsKey mode with
  | some mapping =>
    -- kana bracket toggle: dots 36 alternates between 「 and 」
    let textAndFlag :=
      if mode = Mode.kana ∧ dotsKey = "36" then
        ((if st.kanaBracketOpen then "「" else "」"), !st.kanaBracketOpen)
      else
        (mapping.print, st.kanaBracketOpen)
    let text :=
      if modifier = some ModifierKind.capital then jsToUpper textAndFlag.1
      else textAndFlag.1
    let r := st.sm.onCharacterEmitted
    ({ st with sm := r.1, kanaBracketOpen := textAndFlag.2 },
      [⟨text, some dotsKey⟩], r.2)
  | none =>
    -- no mapping found: insert Unicode braille as fallback
    let braille := dotsKeyToUnicodeBraille dotsKey
    let r := st.sm.onCharacterEmitted
    ({ st with sm := r.1 }, [⟨braille, some dotsKey⟩], r.2)

/-- Embeds `processCharacter(dotsKey)`: numeric-table continuation first,
then the normal single-cell lookup. -/
def processCharacter (tbl : Tables) (st : DriverState) (dotsKey : String) :
    DriverState × List Emission × List ModeChangeEvent :=
  let c := st.sm.consumeModifier
  let st1 : DriverState := { st with sm := c.2 }
  if c.1 = some ModifierKind.numeric ∨ st1.isNumericMode then
    match tbl.numericLookup dotsKey with
    | some numMapping =>
      -- stay in numeric mode for consecutive digits
      let r := st1.sm.onCharacterEmitted
      ({ st1 with sm := r.1, isNumericMode := true },
        [⟨numMapping.print, some dotsKey⟩], r.2)
    | none =>
      -- not a digit: exit numeric mode, fall through to normal lookup
      characterNormalPath tbl { st1 with isNumericMode := false } c.1 dotsKey
  else
    characterNormalPath tbl st1 c.1 dotsKey

/-- Process a list of cells through `processCharacter`, in order,
concatenating emissions and callback events. -/
def runChars (tbl : Tables) (st : DriverState) (cells : List String) :
    DriverState × List Emission × List ModeChangeEvent :=
  cells.foldl
    (fun acc c =>
      let r := processCharacter tbl acc.1 c
      (r.1, acc.2.1 ++ r.2.1, acc.2.2 ++ r.2.2))
    (st, [], [])

/-- Embeds `processCellFallback(dotsKey)`: indicator matching, then
single-cell character output. -/
def processCellFallback (tbl : Tables) (st : DriverState) (dotsKey : String) :
    DriverState × List Emission × List ModeChangeEvent :=
  let m := IndicatorMatcher.tryMatch tbl.indicators st.ind dotsKey
  let st1 : DriverState := { st with ind := m.1 }
  match m.2 with
  | IndicatorMatchResult.matched i =>
    let p := st1.sm.processIndicator i
    let st2 : DriverState := { st1 with sm := p.1 }
    let st3 :=
      if i.modifier = some ModifierKind.numeric then
        { st2 with isNumericMode := true }
      else st2
    (st3, [], p.2.2)
  | IndicatorMatchResult.matchedWithLeftover i leftover =>
    let p := st1.sm.processIndicator i
    let st2 : DriverState := { st1 with sm := p.1 }
    let st3 :=
      if i.modifier = some ModifierKind.numeric then
        { st2 with isNumericMode := true }
      else st2
    let r := runChars tbl st3 leftover
    (r.1, r.2.1, p.2.2 ++ r.2.2)
  | IndicatorMatchResult.pending => (st1, [], [])
  | IndicatorMatchResult.none buffered => runChars tbl st1 buffered

/-- Process a list of cells through `processCellFallback`, in order. -/
def runFallback (tbl : Tables) (st : DriverState) (cells : List String) :
    DriverState × List Emission × List ModeChangeEvent :=
  cells.foldl
    (fun acc c =>
      let r := processCellFallback tbl acc.1 c
      (r.1, acc.2.1 ++ r.2.1, acc.2.2 ++ r.2.2))
    (st, [], [])

/-- Embeds `flushAllPending()`: flush the multi-cell buffer through
`processCellFallback`, then the indicator buffer through
`processCharacter`. -/
def flushAllPending (tbl : Tables) (st : DriverState) :
    DriverState × List Emission × List ModeChangeEvent :=
  let f1 := st.mc.flushPending
  let r1 := runFallback tbl { st with mc := f1.2 } f1.1
  let f2 := r1.1.ind.flushPending
  let r2 := runChars tbl { r1.1 with ind := f2.2 } f2.1
  (r2.1, r1.2.1 ++ r2.2.1, r1.2.2 ++ r2.2.2)

/-- Embeds `emitMultiCellMatch(entry)`: consume the pending modifier
(upper-casing on capital), emit once, notify the state machine, clear
numeric mode. -/
def emitMultiCellMatch (st : DriverState) (entry : MultiCellEntry) :
    DriverState × List Emission × List ModeChangeEvent :=
  let c := st.sm.consumeModifier
  let text :=
    if c.1 = some ModifierKind.capital then jsToUpper entry.print
    else entry.print
  let r := c.2.onCharacterEmitted
  ({ st with sm := r.1, isNumericMode := false },
    [⟨text, some entry.dotsKey⟩], r.2)

/-- Embeds `handleChord(dots)`: the driver's ordering law.  Space flushes all
pending state, emits a space, and clears numeric mode; otherwise
multi-cell matching comes first, then the indicator/character
fallback. -/
def handleChord (tbl : Tables) (st : DriverState) (dots : List Nat) :
    DriverState × List Emission × List ModeChangeEvent :=
  if dots.contains 0 then
    let fr := flushAllPending tbl st
    let sp := fr.1.sm.onSpace
    ({ fr.1 with sm := sp.1, isNumericMode := false },
      fr.2.1 ++ [⟨" ", none⟩], fr.2.2 ++ sp.2)
  else
    let dotsKey := chordDotsToKey dots
    let mode := st.sm.currentMode
    let m := MultiCellMatcher.tryMatch tbl.multiCellEntries st.mc dotsKey mode
    let st1 : DriverState := { st with mc := m.1 }
    match m.2 with
    | MultiCellMatchResult.matched e => emitMultiCellMatch st1 e
    | MultiCellMatchResult.matchedWithLeftover e leftover =>
      let r1 := emitMultiCellMatch st1 e
      let r2 := runFallback tbl r1.1 leftover
      (r2.1, r1.2.1 ++ r2.2.1, r1.2.2 ++ r2.2.2)
    | MultiCellMatchResult.pending => (st1, [], [])
    | MultiCellMatchResult.none buffered => runFallback tbl st1 buffered

/-! ## Overlay tracker (src/output/braille-tracker.ts) -/

/-- The `while (arr.length <= col) arr.push("")` padding loop of
`BrailleTracker.record`. -/
def padToCol (arr : List String) (col : Nat) : List String :=
  if arr.length ≤ col then padToCol (arr ++ [""]) col else arr
termination_by col + 1 - arr.length
decreasing_by simp; omega

/-- Embeds `BrailleTracker.lineData`, a JS `Map` from line number to the
per-line array of dot keys. -/
structure TrackerState where
  lineData : Nat → Option (List String)

/-- Empty tracker (constructor / `clear()`). -/
def TrackerState.empty : TrackerState :=
  ⟨fun _ => none⟩

/-- Embeds `BrailleTracker.record(line, col, dotsKey)`. -/
def TrackerState.record (st : TrackerState) (line col : Nat)
    (dotsKey : String) : TrackerState :=
  let arr := (st.lineData line).getD []
  let arr2 := padToCol arr col
  let arr3 := arr2.set col dotsKey
  ⟨fun l => if l = line then some arr3 else st.lineData l⟩

/-- Embeds `BrailleTracker.recordSpace(line, col)`. -/
def TrackerState.recordSpace (st : TrackerState) (line col : Nat) :
    TrackerState :=
  st.record line col ""

/-- Embeds `BrailleTracker.getLine(line)`: the Unicode braille string for a
line; empty entries render as `U+2800`. -/
def TrackerState.getLine (st : TrackerState) (line : Nat) : String :=
  match st.lineData line with
  | none => ""
  | some arr =>
    if arr.length = 0 then ""
    else
      String.join (arr.map (fun dotsKey =>
        if dotsKey = "" then "⠀" else dotsKeyToUnicodeBraille dotsKey))

/-- Embeds `BrailleTracker.hasLine(line)`. -/
def TrackerState.hasLine (st : TrackerState) (line : Nat) : Bool :=
  match st.lineData line with
  | some arr => arr.length > 0
  | none => false

/-! ## Claims -/

/-- Claim C1: the claimed rule "a punctuation-role entry overrides a
contraction-like (groupsigns/wordsigns) entry regardless of insertion
order" is what the unifier's own test suite expects, but
`processSingleCell` implements only the paired-overrides-plain rule:
evaluated at the test's own input (a `groupsigns` entry for dot key
256 followed by a `punctuation` entry for the same key and mode), the
table keeps the groupsigns mapping. -/
theorem c1_punctuation_loses_to_earlier_groupsigns :
    (let m0 : SingleCellMap := fun _ => none
     let dis : RawBrailleEntry :=
       { category := "contraction", subcategory := "groupsigns",
         role := "groupsigns", print := some "dis", dots := ["256"],
         tags := [], id := "contraction_dis" }
     let period : RawBrailleEntry :=
       { category := "punctuation", subcategory := "period",
         role := "punctuation", print := some ".", dots := ["256"],
         tags := [], id := "period" }
     let m2 := processSingleCell period Mode.grade1
       (processSingleCell dis Mode.grade1 m0)
     (m2 "256").map (fun u => u.mappings Mode.grade1))
    = some (some { print := "dis", role := "groupsigns",
                   id := "contraction_dis" }) := by
  decide

/-- Claim C2 (counterexample): enter-then-exit does not return the
machine to its pre-enter state for every starting state.  Here the
machine (reached from the initial state by entering kana with word
scope) holds active scope `word`; entering nemeth with symbol scope
and then exiting restores the mode and stack depth but leaves the
active scope cleared to `none`, not `word`. -/
theorem c2_counterexample :
    ¬ (let enterKanaWord : IndicatorDef :=
         { id := "kana_indicator", dots := ["16", "13"], dotsKey := "16|13",
           action := IndAction.enter, targetMode := Mode.kana,
           scope := IndicatorScope.word,
           indicatorType := IndicatorType.mode_switch,
           modifier := none, tags := ["kana", "word"] }
       let enterNemethSym : IndicatorDef :=
         { id := "nemeth_indicator", dots := ["456", "146"],
           dotsKey := "456|146", action := IndAction.enter,
           targetMode := Mode.nemeth, scope := IndicatorScope.symbol,
           indicatorType := IndicatorType.mode_switch,
           modifier := none, tags := ["nemeth"] }
       let exitNemeth : IndicatorDef :=
         { id := "nemeth_terminator", dots := ["456", "156"],
           dotsKey := "456|156", action := IndAction.exit,
           targetMode := Mode.grade1, scope := IndicatorScope.symbol,
           indicatorType := IndicatorType.mode_switch,
           modifier := none, tags := ["nemeth", "terminator"] }
       let s := (SMState.initial.processIndicator enterKanaWord).1
       let s1 := (s.processIndicator enterNemethSym).1
       let s2 := (s1.processIndicator exitNemeth).1
       s2.currentMode = s.currentMode ∧ s2.activeScope = s.activeScope ∧
         s2.modeStack.length = s.modeStack.length) := by
  decide

/-- Claim C2 (amended): for every mode_switch enter indicator and
every starting state in which the enter is not the already-in-mode
no-op, processing the enter and then any mode_switch exit indicator
restores the mode and the whole mode stack (hence the stack depth)
exactly, and clears the active scope to `none` — so the full
(mode, scope, depth) triple is restored exactly when the prior scope
was `none`. -/
theorem c2_enter_exit_roundtrip (s : SMState) (ie xe : IndicatorDef)
    (hiet : ie.indicatorType = IndicatorType.mode_switch)
    (hiea : ie.action = IndAction.enter)
    (hxet : xe.indicatorType = IndicatorType.mode_switch)
    (hxea : xe.action = IndAction.exit)
    (heff : ¬(s.currentMode = ie.targetMode ∧ s.activeScope = some ie.scope)) :
    ((((s.processIndicator ie).1).processIndicator xe).1.currentMode
        = s.currentMode) ∧
    ((((s.processIndicator ie).1).processIndicator xe).1.modeStack
        = s.modeStack) ∧
    ((((s.processIndicator ie).1).processIndicator xe).1.modeStack.length
        = s.modeStack.length) ∧
    ((((s.processIndicator ie).1).processIndicator xe).1.activeScope
        = none) := by
  rcases Decidable.em (ie.targetMode = s.currentMode) with h | h
  · have h2 : ¬ s.activeScope = some ie.scope := fun hs => heff ⟨h.symm, hs⟩
    simp [SMState.processIndicator, hiet, hiea, hxet, hxea,
      SMState.enterMode, SMState.exitMode, SMState.returnToBase, h, h2]
  · have h2 : ¬ s.currentMode = ie.targetMode := fun he => h he.symm
    simp [SMState.processIndicator, hiet, hiea, hxet, hxea,
      SMState.enterMode, SMState.exitMode, SMState.returnToBase, h, h2]

/-- Claim C2 (witness for the amended theorem): a concrete instance —
from the initial state, entering kana (word scope) and exiting
restores grade1 with an empty stack and no scope. -/
theorem c2_enter_exit_roundtrip_witness :
    (let ie : IndicatorDef :=
       { id := "kana_indicator", dots := ["16", "13"], dotsKey := "16|13",
         action := IndAction.enter, targetMode := Mode.kana,
         scope := IndicatorScope.word,
         indicatorType := IndicatorType.mode_switch,
         modifier := none, tags := ["kana", "word"] }
     let xe : IndicatorDef :=
       { id := "kana_terminator", dots := ["16", "16"], dotsKey := "16|16",
         action := IndAction.exit, targetMode := Mode.grade1,
         scope := IndicatorScope.symbol,
         indicatorType := IndicatorType.mode_switch,
         modifier := none, tags := ["kana", "terminator"] }
     ((((SMState.initial.processIndicator ie).1).processIndicator xe).1.currentMode
         = SMState.initial.currentMode) ∧
     ((((SMState.initial.processIndicator ie).1).processIndicator xe).1.modeStack
         = SMState.initial.modeStack) ∧
     ((((SMState.initial.processIndicator ie).1).processIndicator xe).1.modeStack.length
         = SMState.initial.modeStack.length) ∧
     ((((SMState.initial.processIndicator ie).1).processIndicator xe).1.activeScope
         = none)) :=
  c2_enter_exit_roundtrip SMState.initial _ _ rfl rfl rfl rfl (by decide)

/-- Claim C3 (counterexample): an exit indicator in a state that is
not (grade1 with empty stack) does not always return true and fire the
callback.  Reached from the initial state by entering kana with symbol
scope and then kana with word scope, the stack top equals the current
mode; the exit pops it but returns false and fires no callback. -/
theorem c3_counterexample :
    ¬ (let enterKanaSym : IndicatorDef :=
         { id := "kana_symbol", dots := ["16", "13"], dotsKey := "16|13",
           action := IndAction.enter, targetMode := Mode.kana,
           scope := IndicatorScope.symbol,
           indicatorType := IndicatorType.mode_switch,
           modifier := none, tags := ["kana"] }
       let enterKanaWord : IndicatorDef :=
         { id := "kana_word", dots := ["16", "13"], dotsKey := "16|13",
           action := IndAction.enter, targetMode := Mode.kana,
           scope := IndicatorScope.word,
           indicatorType := IndicatorType.mode_switch,
           modifier := none, tags := ["kana", "word"] }
       let exitKana : IndicatorDef :=
         { id := "kana_terminator", dots := ["16", "16"], dotsKey := "16|16",
           action := IndAction.exit, targetMode := Mode.grade1,
           scope := IndicatorScope.symbol,
           indicatorType := IndicatorType.mode_switch,
           modifier := none, tags := ["kana", "terminator"] }
       let s1 := (SMState.initial.processIndicator enterKanaSym).1
       let s2 := (s1.processIndicator enterKanaWord).1
       let r := s2.processIndicator exitKana
       (s2.currentMode = Mode.grade1 ∧ s2.modeStack = []) ∨
         (r.2.1 = true ∧ r.2.2 ≠ [])) := by
  decide

/-- Claim C3 (amended): processing a mode_switch exit indicator at
grade1 with an empty stack is a no-op returning false.  In every
other state it pops the stack (or restores grade1 when the stack is
empty), clears the active scope, resets symbolCount to 0, and it
returns true and fires the mode-change callback exactly when the
restored mode differs from the mode being exited. -/
theorem c3_exit_indicator (s : SMState) (xe : IndicatorDef)
    (ht : xe.indicatorType = IndicatorType.mode_switch)
    (ha : xe.action = IndAction.exit) :
    (s.currentMode = Mode.grade1 ∧ s.modeStack = [] →
      s.processIndicator xe = (s, false, [])) ∧
    (¬(s.currentMode = Mode.grade1 ∧ s.modeStack = []) →
      (s.processIndicator xe).1.currentMode = s.modeStack.headD Mode.grade1 ∧
      (s.processIndicator xe).1.modeStack = s.modeStack.tail ∧
      (s.processIndicator xe).1.activeScope = none ∧
      (s.processIndicator xe).1.symbolCount = 0 ∧
      ((s.processIndicator xe).2.1 = true ↔
        s.currentMode ≠ s.modeStack.headD Mode.grade1) ∧
      (s.processIndicator xe).2.2 =
        (if s.currentMode = s.modeStack.headD Mode.grade1 then []
         else [⟨s.currentMode, s.modeStack.headD Mode.grade1,
                "auto_return"⟩])) := by
  constructor
  · intro hbase
    simp [SMState.processIndicator, ht, ha, SMState.exitMode, hbase]
  · intro hne
    rcases Decidable.em (s.currentMode = s.modeStack.headD Mode.grade1)
      with h | h <;>
      cases hstk : s.modeStack <;>
      simp_all [SMState.processIndicator, ht, ha, SMState.exitMode,
        SMState.returnToBase]

/-- Claim C3 (witness for the amended theorem): concrete instances of
both conjuncts — the no-op at base, and an exit from kana (scope word,
nonzero symbolCount) popping back to grade1 with the callback fired. -/
theorem c3_exit_indicator_witness :
    (let xe : IndicatorDef :=
       { id := "kana_terminator", dots := ["16", "16"], dotsKey := "16|16",
         action := IndAction.exit, targetMode := Mode.grade1,
         scope := IndicatorScope.symbol,
         indicatorType := IndicatorType.mode_switch,
         modifier := none, tags := ["kana", "terminator"] }
     let s : SMState :=
       { currentMode := Mode.kana, modeStack := [Mode.grade1],
         activeScope := some IndicatorScope.word, symbolCount := 3,
         pendingModifier := none }
     ¬(s.currentMode = Mode.grade1 ∧ s.modeStack = []) ∧
     ((s.processIndicator xe).1.currentMode = s.modeStack.headD Mode.grade1 ∧
      (s.processIndicator xe).1.modeStack = s.modeStack.tail ∧
      (s.processIndicator xe).1.activeScope = none ∧
      (s.processIndicator xe).1.symbolCount = 0 ∧
      ((s.processIndicator xe).2.1 = true ↔
        s.currentMode ≠ s.modeStack.headD Mode.grade1) ∧
      (s.processIndicator xe).2.2 =
        (if s.currentMode = s.modeStack.headD Mode.grade1 then []
         else [⟨s.currentMode, s.modeStack.headD Mode.grade1,
                "auto_return"⟩]))) :=
  ⟨by decide,
   (c3_exit_indicator _ _ rfl rfl).2 (by decide)⟩

/-- The last element of a buffer after pushing `a` is `a`. -/
theorem getLastD_push (l : List String) (a : String) :
    (l ++ [a]).getLastD "" = a := by
  induction l with
  | nil => rfl
  | cons b bs ih =>
    cases bs with
    | nil => rfl
    | cons c cs => simpa using ih

/-- Claim C5: when the buffered key has no exact indicator match, is
not a proper prefix of any indicator, and a deferred match is held,
`IndicatorMatcher.tryMatch` commits the deferred indicator with
exactly the incoming (last buffered) cell as the only leftover and
clears both the buffer and the deferred slot. -/
theorem c5_deferred_commit (indicators : List IndicatorDef)
    (st : IndState) (k : String) (d : IndicatorDef)
    (hex : indicators.find?
      (fun i => i.dotsKey == joinPipe (st.pendingCells ++ [k])) = none)
    (hlp : indicators.any (fun i =>
      String.isPrefixOf (joinPipe (st.pendingCells ++ [k]) ++ "|") i.dotsKey)
      = false)
    (hdef : st.deferredMatch = some d) :
    IndicatorMatcher.tryMatch indicators st k =
      ({ pendingCells := [], deferredMatch := none },
        IndicatorMatchResult.matchedWithLeftover d [k]) := by
  unfold IndicatorMatcher.tryMatch
  simp [hex, hlp, hdef, getLastD_push]

/-- Claim C5 (witness): a concrete deferred commit.  With indicators
for dots 6 (capital, one cell) and dots 6+6 (capital word, two cells),
a buffered "6" with the short match deferred followed by cell "1"
commits the capital indicator and returns "1" as the only leftover. -/
theorem c5_deferred_commit_witness :
    (let cap : IndicatorDef :=
       { id := "capital_letter", dots := ["6"], dotsKey := "6",
         action := IndAction.enter, targetMode := Mode.grade1,
         scope := IndicatorScope.symbol,
         indicatorType := IndicatorType.modifier,
         modifier := some ModifierKind.capital, tags := [] }
     let capWord : IndicatorDef :=
       { id := "capital_word", dots := ["6", "6"], dotsKey := "6|6",
         action := IndAction.enter, targetMode := Mode.grade1,
         scope := IndicatorScope.word,
         indicatorType := IndicatorType.modifier,
         modifier := some ModifierKind.capital, tags := ["word"] }
     let inds := [cap, capWord]
     let st : IndState := { pendingCells := ["6"], deferredMatch := some cap }
     (inds.find?
       (fun i => i.dotsKey == joinPipe (st.pendingCells ++ ["1"])) = none) ∧
     (inds.any (fun i =>
       String.isPrefixOf (joinPipe (st.pendingCells ++ ["1"]) ++ "|") i.dotsKey)
       = false) ∧
     (st.deferredMatch = some cap) ∧
     IndicatorMatcher.tryMatch inds st "1" =
       ({ pendingCells := [], deferredMatch := none },
         IndicatorMatchResult.matchedWithLeftover cap ["1"])) := by
  refine ⟨by decide, by decide, rfl, ?_⟩
  exact c5_deferred_commit _ _ _ _ (by decide) (by decide) rfl

/-- Claim C6: with at least two buffered cells, no exact mode-filtered
match and no longer-prefix possibility, `MultiCellMatcher.tryMatch`
recovers by dropping the last cell: if the preceding prefix has an
exact mode-filtered match the result is matched_with_leftover with
that entry and the dropped cell as the only leftover; otherwise the
result is none with the entire buffer.  Either way the buffer is
cleared. -/
theorem c6_leftover_recovery (entries : List MultiCellEntry)
    (st : McState) (k : String) (mode : Mode)
    (hne : st.pendingCells ≠ [])
    (hex : (entries.filter (fun e => e.mode == mode || e.mode == Mode.grade1)).find?
      (fun e => e.dotsKey == joinPipe (st.pendingCells ++ [k])) = none)
    (hlp : (entries.filter (fun e => e.mode == mode || e.mode == Mode.grade1)).any
      (fun e => String.isPrefixOf (joinPipe (st.pendingCells ++ [k]) ++ "|")
        e.dotsKey) = false) :
    MultiCellMatcher.tryMatch entries st k mode =
      ({ pendingCells := [] },
        match (entries.filter
            (fun e => e.mode == mode || e.mode == Mode.grade1)).find?
            (fun e => e.dotsKey == joinPipe st.pendingCells) with
        | some prevMatch =>
          MultiCellMatchResult.matchedWithLeftover prevMatch [k]
        | none => MultiCellMatchResult.none (st.pendingCells ++ [k])) := by
  unfold MultiCellMatcher.tryMatch
  have hpos : 0 < st.pendingCells.length := List.length_pos.mpr hne
  simp [hex, hlp, hpos, List.dropLast_concat, getLastD_push]
  split <;> simp [*]

/-- Claim C6 (witness): concrete recovery.  With two-cell entries
5+126 → "(" and a one-cell entry 5 → "num5", buffer ["5"] and an
unmatchable next cell "999", the matcher recovers the one-cell entry
and returns "999" as leftover. -/
theorem c6_leftover_recovery_witness :
    (let paren : MultiCellEntry :=
       { id := "left_paren", dots := ["5", "126"], dotsKey := "5|126",
         print := "(", mode := Mode.grade1, role := "punctuation" }
     let five : MultiCellEntry :=
       { id := "five_alone", dots := ["5"], dotsKey := "5",
         print := "5", mode := Mode.grade1, role := "punctuation" }
     let entries := [paren, five]
     let st : McState := { pendingCells := ["5"] }
     (st.pendingCells ≠ []) ∧
     ((entries.filter (fun e => e.mode == Mode.grade1 || e.mode == Mode.grade1)).find?
       (fun e => e.dotsKey == joinPipe (st.pendingCells ++ ["999"])) = none) ∧
     ((entries.filter (fun e => e.mode == Mode.grade1 || e.mode == Mode.grade1)).any
       (fun e => String.isPrefixOf (joinPipe (st.pendingCells ++ ["999"]) ++ "|")
         e.dotsKey) = false) ∧
     MultiCellMatcher.tryMatch entries st "999" Mode.grade1 =
       ({ pendingCells := [] },
         MultiCellMatchResult.matchedWithLeftover five ["999"])) := by
  refine ⟨by decide, by decide, by decide, ?_⟩
  exact c6_leftover_recovery _ _ _ _ (by decide) (by decide) (by decide)

/-- Claim C9: for both matchers, every `tryMatch` call whose result is
matched, matched_with_leftover, or none leaves the internal cell
buffer empty (`hasPending` is false); only a pending result keeps
cells buffered. -/
theorem c9_buffer_empty_after_nonpending :
    (∀ (indicators : List IndicatorDef) (st : IndState) (k : String),
      (IndicatorMatcher.tryMatch indicators st k).2
          = IndicatorMatchResult.pending ∨
        (IndicatorMatcher.tryMatch indicators st k).1.hasPending = false) ∧
    (∀ (entries : List MultiCellEntry) (st : McState) (k : String)
        (mode : Mode),
      (MultiCellMatcher.tryMatch entries st k mode).2
          = MultiCellMatchResult.pending ∨
        (MultiCellMatcher.tryMatch entries st k mode).1.hasPending = false) := by
  constructor
  · intro indicators st k
    unfold IndicatorMatcher.tryMatch
    repeat' (split <;> try simp [IndState.hasPending])
  · intro entries st k mode
    unfold MultiCellMatcher.tryMatch
    rcases hf : (entries.filter fun e =>
        e.mode == mode || e.mode == Mode.grade1).find?
        (fun e => e.dotsKey == joinPipe (st.pendingCells ++ [k])) with _ | e <;>
      simp only [hf] <;>
      repeat' (split <;> try simp [McState.hasPending])

/-- The state machine's `onCharacterEmitted` never touches the
pending modifier. -/
theorem onCharacterEmitted_pendingModifier (st : SMState) :
    st.onCharacterEmitted.1.pendingModifier = st.pendingModifier := by
  unfold SMState.onCharacterEmitted SMState.returnToBase
  cases h : st.modeStack <;>
    by_cases h1 : st.activeScope = some IndicatorScope.symbol <;>
    simp [h, h1] <;> split_ifs <;> simp

/-- Claim C10: every matched multi-cell emission consumes the pending
modifier (upper-casing the print on capital), performs exactly one
emission, applies `onCharacterEmitted` to the state machine exactly
once, and unconditionally clears the driver's `isNumericMode` flag. -/
theorem c10_multi_cell_emission (st : DriverState) (entry : MultiCellEntry) :
    (emitMultiCellMatch st entry).1.sm.pendingModifier = none ∧
    (emitMultiCellMatch st entry).2.1 =
      [⟨(if st.sm.pendingModifier = some ModifierKind.capital
         then jsToUpper entry.print else entry.print), some entry.dotsKey⟩] ∧
    (emitMultiCellMatch st entry).1.isNumericMode = false ∧
    (emitMultiCellMatch st entry).1.sm =
      (SMState.onCharacterEmitted
        { st.sm with pendingModifier := none }).1 := by
  refine ⟨?_, rfl, rfl, rfl⟩
  unfold emitMultiCellMatch SMState.consumeModifier
  simpa using onCharacterEmitted_pendingModifier
    { st.sm with pendingModifier := none }

/-- The normal-lookup tail of `processCharacter` never changes the
`isNumericMode` flag. -/
theorem characterNormalPath_isNumericMode (tbl : Tables) (st : DriverState)
    (modifier : Option ModifierKind) (dotsKey : String) :
    (characterNormalPath tbl st modifier dotsKey).1.isNumericMode
      = st.isNumericMode := by
  unfold characterNormalPath
  cases hf : tbl.singleLookup dotsKey st.sm.currentMode <;> simp [hf]

/-- Claim C4: numeric continuation in the driver.  While `numericMode`
is set, a key processed at the character stage leaves `numericMode`
true exactly when the key resolves in the numeric table (the first
non-resolving key clears it); and a space chord clears `numericMode`
unconditionally. -/
theorem c4_numeric_continuation :
    (∀ (tbl : Tables) (st : DriverState) (k : String),
      st.isNumericMode = true →
      (processCharacter tbl st k).1.isNumericMode
        = (tbl.numericLookup k).isSome) ∧
    (∀ (tbl : Tables) (st : DriverState) (dots : List Nat),
      dots.contains 0 = true →
      (handleChord tbl st dots).1.isNumericMode = false) := by
  constructor
  · intro tbl st k hnum
    unfold processCharacter SMState.consumeModifier
    cases hf : tbl.numericLookup k with
    | some numMapping => simp [hnum, hf]
    | none => simp [hnum, hf, characterNormalPath_isNumericMode]
  · intro tbl st dots hsp
    unfold handleChord
    have h0 : (0 : Nat) ∈ dots := by simpa using hsp
    simp [h0]

/-- Claim C4 (witness): with a concrete numeric table containing only
key "1", processing "1" in numeric mode keeps the flag, and a space
chord clears it. -/
theorem c4_numeric_continuation_witness :
    (let tbl : Tables :=
       { indicators := []
         multiCellEntries := []
         numericLookup := fun k =>
           if k = "1" then
             some { print := "1", role := "numbers", id := "number_1" }
           else none
         singleLookup := fun _ _ => none }
     let st : DriverState := { DriverState.initial with isNumericMode := true }
     (st.isNumericMode = true) ∧
     ((processCharacter tbl st "1").1.isNumericMode
        = (tbl.numericLookup "1").isSome) ∧
     (([0] : List Nat).contains 0 = true) ∧
     ((handleChord tbl st [0]).1.isNumericMode = false)) :=
  ⟨rfl, c4_numeric_continuation.1 _ _ "1" rfl, rfl,
   c4_numeric_continuation.2 _ _ [0] rfl⟩

/-- Claim C7: kana bracket toggle.  When the current mode is kana and
key "36" goes through the character stage (numeric path not taken,
single-cell lookup succeeds), the emitted text is 「 when the driver's
`kanaBracketOpen` flag is set and 」 otherwise, and the flag flips —
so successive emissions alternate.  The flag starts true at activation
and is reset to true on deactivate. -/
theorem c7_kana_bracket_toggle :
    (∀ (tbl : Tables) (st : DriverState) (m : DotMapping),
      st.sm.currentMode = Mode.kana →
      st.isNumericMode = false →
      st.sm.pendingModifier ≠ some ModifierKind.numeric →
      tbl.singleLookup "36" Mode.kana = some m →
      (processCharacter tbl st "36").2.1 =
        [⟨if st.kanaBracketOpen then "「" else "」", some "36"⟩] ∧
      (processCharacter tbl st "36").1.kanaBracketOpen
        = !st.kanaBracketOpen) ∧
    DriverState.initial.kanaBracketOpen = true ∧
    (∀ st : DriverState, (deactivateReset st).kanaBracketOpen = true) := by
  refine ⟨?_, rfl, fun _ => rfl⟩
  intro tbl st m hmode hnum hmod hlook
  have hup1 : jsToUpper "「" = "「" := by decide
  have hup2 : jsToUpper "」" = "」" := by decide
  unfold processCharacter SMState.consumeModifier characterNormalPath
  rw [show ({ st with sm := { st.sm with pendingModifier := none } }
      : DriverState).sm.currentMode = Mode.kana from hmode] at *
  simp only [hnum, hmod]
  simp [hmode, hnum, hmod, hlook]
  cases hb : st.kanaBracketOpen <;>
    cases hpm : st.sm.pendingModifier with
    | none => simp
    | some mk =>
      cases mk with
      | capital => simp [hup1, hup2]
      | numeric => exact absurd hpm hmod
      | typeform => simp

/-- Claim C7 (witness): in kana mode with a concrete lookup table,
processing "36" with the flag set emits 「 and flips the flag, and the
reset paths leave the flag true. -/
theorem c7_kana_bracket_toggle_witness :
    (let m : DotMapping :=
       { print := "-", role := "punctuation", id := "hyphen" }
     let tbl : Tables :=
       { indicators := []
         multiCellEntries := []
         numericLookup := fun _ => none
         singleLookup := fun k mode =>
           if k = "36" ∧ mode = Mode.kana then some m else none }
     let st : DriverState :=
       { DriverState.initial with
         sm := { SMState.initial with currentMode := Mode.kana } }
     (st.sm.currentMode = Mode.kana) ∧
     (st.isNumericMode = false) ∧
     (st.sm.pendingModifier ≠ some ModifierKind.numeric) ∧
     (tbl.singleLookup "36" Mode.kana = some m) ∧
     ((processCharacter tbl st "36").2.1 =
        [⟨if st.kanaBracketOpen then "「" else "」", some "36"⟩] ∧
      (processCharacter tbl st "36").1.kanaBracketOpen
        = !st.kanaBracketOpen)) :=
  ⟨rfl, rfl, by decide, by decide,
   c7_kana_bracket_toggle.1 _ _
     { print := "-", role := "punctuation", id := "hyphen" }
     rfl rfl (by decide) (by decide)⟩

/-- The padding loop appends exactly enough empty entries to reach
length `col + 1`. -/
theorem padToCol_eq (arr : List String) (col : Nat) :
    padToCol arr col = arr ++ List.replicate (col + 1 - arr.length) "" := by
  generalize hfuel : col + 1 - arr.length = fuel
  induction fuel generalizing arr with
  | zero =>
    have h : ¬ arr.length ≤ col := by omega
    rw [padToCol, if_neg h]
    simp [show col + 1 - arr.length = 0 by omega]
  | succ n ih =>
    have h : arr.length ≤ col := by omega
    rw [padToCol, if_pos h, ih (arr ++ [""]) (by simp; omega),
      List.append_assoc]
    congr 1

/-- Length of the padded array. -/
theorem padToCol_length (arr : List String) (col : Nat) :
    (padToCol arr col).length = max arr.length (col + 1) := by
  rw [padToCol_eq]
  simp
  omega

/-- Flattening a list of singleton lists is a map. -/
theorem flatten_map_singleton {α : Type} (l : List α) (g : α → Char) :
    (l.map (fun x => [g x])).flatten = l.map g := by
  induction l with
  | nil => rfl
  | cons a as ih => simp [ih]

/-- Claim C8: overlay tracker gap filling and rendering.
`record(line, col, k)` stores `k` at column `col`, keeps all
previously stored columns, pads every position from the old length up
to `col` with empty entries (so the stored line has length
`max (old length) (col+1)`), and `getLine` renders one glyph per
stored entry in column order: `U+2800` for every empty entry (padded
gaps and recorded spaces) and the Unicode braille encoding
(`U+2800 +` dot offset sum) for every non-empty dot key. -/
theorem c8_tracker_record_getLine :
    (∀ (st : TrackerState) (line col : Nat) (k : String),
      (((st.record line col k).lineData line).getD []).length
        = max ((st.lineData line).getD []).length (col + 1)) ∧
    (∀ (st : TrackerState) (line col : Nat) (k : String) (j : Nat),
      (((st.record line col k).lineData line).getD [])[j]? =
        (if j = col then some k
         else if j < ((st.lineData line).getD []).length then
           ((st.lineData line).getD [])[j]?
         else if j < max ((st.lineData line).getD []).length (col + 1) then
           some ""
         else none)) ∧
    (∀ (st : TrackerState) (line : Nat),
      st.getLine line = String.mk (((st.lineData line).getD []).map
        (fun dk => if dk = "" then '⠀'
                   else Char.ofNat (0x2800 + brailleOffset dk)))) := by
  refine ⟨?_, ?_, ?_⟩
  · intro st line col k
    simp [TrackerState.record, padToCol_length]
  · intro st line col k j
    simp only [TrackerState.record, eq_self_iff_true, if_true,
      Option.getD_some]
    have hlen : (padToCol ((st.lineData line).getD []) col).length
        = max ((st.lineData line).getD []).length (col + 1) :=
      padToCol_length _ _
    by_cases hj : j = col
    · subst hj
      rw [List.getElem?_set_self (by omega), if_pos rfl]
    · rw [List.getElem?_set_ne (fun h => hj h.symm), padToCol_eq, if_neg hj]
      by_cases hlt : j < ((st.lineData line).getD []).length
      · rw [List.getElem?_append_left hlt, if_pos hlt]
      · rw [List.getElem?_append_right (by omega), List.getElem?_replicate,
          if_neg hlt]
        by_cases hmax : j < max ((st.lineData line).getD []).length (col + 1)
        · rw [if_pos (by omega), if_pos hmax]
        · rw [if_neg (by omega), if_neg hmax]
  · intro st line
    unfold TrackerState.getLine
    cases hl : st.lineData line with
    | none =>
      apply String.ext
      simp
    | some arr =>
      by_cases hz : arr.length = 0
      · have harr : arr = [] := List.length_eq_zero.mp hz
        subst harr
        apply String.ext
        simp
      · simp only [Option.getD_some, if_neg hz]
        apply String.ext
        rw [show (fun dk => if dk = "" then "⠀" else dotsKeyToUnicodeBraille dk)
            = fun dk => String.singleton (if dk = "" then '⠀'
                else Char.ofNat (0x2800 + brailleOffset dk)) from
          funext fun dk => by
            by_cases h : dk = ""
            · simp [h]
              decide
            · simp [h, dotsKeyToUnicodeBraille]]
        simp only [String.data_join, List.map_map]
        rw [show (String.data ∘ fun dk =>
            String.singleton (if dk = "" then '⠀'
              else Char.ofNat (0x2800 + brailleOffset dk)))
            = fun dk => [(if dk = "" then '⠀'
              else Char.ofNat (0x2800 + brailleOffset dk))] from
          funext fun dk => rfl]
        rw [flatten_map_singleton]
